import Mathlib

/-!
Verification of the droidrun coordinate-conversion module
(src/droidrun/tools/coordinate.py) against its specification.

The Python module converts between normalized coordinates (range [0, 1000])
and absolute pixel coordinates.  Python integers are arbitrary precision, so
they are embedded as `Int`.  Python's `int(a / b)` on integer operands is
modelled as exact integer division truncated toward zero (`Int.tdiv`),
following the module's documented integer-truncation semantics; Python's
floor division `//` is `Int.fdiv`.  Python exceptions are modelled by an
explicit error value: the module defines `class CoordinateError(ValueError)`,
so an error carries its class, and the class hierarchy (CoordinateError is a
subclass of ValueError) is modelled by `PyErrClass.isSubclassOf`.
-/

/-- Exception classes relevant to the module: the builtin `ValueError` and the
module's own `CoordinateError`, declared as `class CoordinateError(ValueError)`. -/
inductive PyErrClass where
  | valueError
  | coordinateError
deriving DecidableEq

/-- Python's subclass relation restricted to the two classes above:
`CoordinateError` is a subclass of `ValueError`, and each class is a subclass
of itself. -/
def PyErrClass.isSubclassOf : PyErrClass → PyErrClass → Bool
  | _, .valueError => true
  | .coordinateError, .coordinateError => true
  | .valueError, .coordinateError => false

/-- A raised Python exception: its class together with its message. -/
structure PyErr where
  cls : PyErrClass
  msg : String
deriving DecidableEq

deriving instance DecidableEq for Except

/-- Python's `isinstance`: an exception is an instance of a class when its
class is a subclass of it. -/
def PyErr.isInstanceOf (e : PyErr) (c : PyErrClass) : Bool :=
  e.cls.isSubclassOf c

/-- Raising `CoordinateError(msg)` (source lines 15-17). -/
def CoordinateError (msg : String) : PyErr :=
  ⟨.coordinateError, msg⟩

/-- Source line 12: `NORMALIZED_RANGE = 1000`. -/
def NORMALIZED_RANGE : Int := 1000

/-- The `ScreenSize` dataclass (source lines 20-37).  Its `__post_init__`
rejects non-positive dimensions, so every observable instance carries the
positivity invariant. -/
structure ScreenSize where
  width : Int
  height : Int
  width_pos : 0 < width
  height_pos : 0 < height

/-- Construction `ScreenSize(width, height)` including `__post_init__`
validation (source lines 32-37): raises `CoordinateError` on a non-positive
dimension, otherwise yields the instance. -/
def ScreenSize.make (w h : Int) : Except PyErr ScreenSize :=
  if hw : w ≤ 0 then
    .error (CoordinateError ("Screen width must be positive, got " ++ toString w))
  else if hh : h ≤ 0 then
    .error (CoordinateError ("Screen height must be positive, got " ++ toString h))
  else
    .ok ⟨w, h, by omega, by omega⟩

/-- The `screen_bounds` sub-mapping of a device context: each of the keys
`width` and `height` may be present (with an integer value) or absent. -/
structure ScreenBoundsDict where
  width : Option Int
  height : Option Int

/-- A device-context mapping: the key `screen_bounds` may be present or
absent.  Only the shape read by `from_device_context` is modelled. -/
structure DeviceContextDict where
  screen_bounds : Option ScreenBoundsDict

/-- The classmethod `ScreenSize.from_device_context` (source lines 39-63):
`device_context.get("screen_bounds", {})`, then per-key defaults
`width = screen_bounds.get("width", 1080)` and
`height = screen_bounds.get("height", 2400)`, an explicit positivity check,
and finally construction via `cls(width=width, height=height)`. -/
def ScreenSize.from_device_context (device_context : DeviceContextDict) :
    Except PyErr ScreenSize :=
  let screen_bounds := device_context.screen_bounds.getD ⟨none, none⟩
  let width := screen_bounds.width.getD 1080
  let height := screen_bounds.height.getD 2400
  if width ≤ 0 ∨ height ≤ 0 then
    .error (CoordinateError ("Invalid screen dimensions: " ++ toString width ++ "x"
      ++ toString height ++ ". Both width and height must be positive."))
  else
    ScreenSize.make width height

/-- The `ctx_prefix` computation shared by the validators (source lines 78
and 159): `f"{context}: " if context else ""`. -/
def ctxPre (context : String) : String :=
  if context = "" then "" else context ++ ": "

/-- Source lines 66-87: `validate_normalized_coords`.  Checks each axis
against [0, NORMALIZED_RANGE] and raises `CoordinateError` with the offending
value on failure. -/
def validate_normalized_coords (x y : Int) (context : String) : Except PyErr Unit :=
  if ¬ (0 ≤ x ∧ x ≤ NORMALIZED_RANGE) then
    .error (CoordinateError (ctxPre context ++ "X coordinate (" ++ toString x
      ++ ") out of valid range [0, " ++ toString NORMALIZED_RANGE ++ "]"))
  else if ¬ (0 ≤ y ∧ y ≤ NORMALIZED_RANGE) then
    .error (CoordinateError (ctxPre context ++ "Y coordinate (" ++ toString y
      ++ ") out of valid range [0, " ++ toString NORMALIZED_RANGE ++ "]"))
  else
    .ok ()

/-- Source lines 90-114: `normalized_to_absolute`.  Validates, then computes
`int(norm_x * screen_size.width / NORMALIZED_RANGE)` (truncated division) on
each axis. -/
def normalized_to_absolute (norm_x norm_y : Int) (screen_size : ScreenSize) :
    Except PyErr (Int × Int) :=
  (validate_normalized_coords norm_x norm_y "normalized_to_absolute").bind (fun _ =>
    .ok (Int.tdiv (norm_x * screen_size.width) NORMALIZED_RANGE,
         Int.tdiv (norm_y * screen_size.height) NORMALIZED_RANGE))

/-- Source lines 117-140: `absolute_to_normalized`.  Computes
`int(abs_x * NORMALIZED_RANGE / screen_size.width)` (truncated division) per
axis and clamps each result into [0, NORMALIZED_RANGE] via
`max(0, min(NORMALIZED_RANGE, v))`.  No validation, no failure. -/
def absolute_to_normalized (abs_x abs_y : Int) (screen_size : ScreenSize) :
    Int × Int :=
  (max 0 (min NORMALIZED_RANGE (Int.tdiv (abs_x * NORMALIZED_RANGE) screen_size.width)),
   max 0 (min NORMALIZED_RANGE (Int.tdiv (abs_y * NORMALIZED_RANGE) screen_size.height)))

/-- Source lines 143-175: `validate_normalized_area`.  Validates both corners
via `validate_normalized_coords`, then enforces `x1 <= x2` and `y1 <= y2`,
raising `CoordinateError` with a message naming the violated constraint and
the context label. -/
def validate_normalized_area (x1 y1 x2 y2 : Int) (context : String) :
    Except PyErr Unit :=
  (validate_normalized_coords x1 y1 (ctxPre context ++ "top-left")).bind (fun _ =>
  (validate_normalized_coords x2 y2 (ctxPre context ++ "bottom-right")).bind (fun _ =>
  if x1 > x2 then
    .error (CoordinateError (ctxPre context ++ "Invalid area: x1 (" ++ toString x1
      ++ ") > x2 (" ++ toString x2 ++ "). Top-left X must be <= bottom-right X"))
  else if y1 > y2 then
    .error (CoordinateError (ctxPre context ++ "Invalid area: y1 (" ++ toString y1
      ++ ") > y2 (" ++ toString y2 ++ "). Top-left Y must be <= bottom-right Y"))
  else
    .ok ()))

/-- Source lines 178-207: `normalized_area_to_center`.  Validates the area,
computes the floor-division midpoint `((x1+x2)//2, (y1+y2)//2)` and converts
it via `normalized_to_absolute`. -/
def normalized_area_to_center (x1 y1 x2 y2 : Int) (screen_size : ScreenSize) :
    Except PyErr (Int × Int) :=
  (validate_normalized_area x1 y1 x2 y2 "normalized_area_to_center").bind (fun _ =>
    normalized_to_absolute (Int.fdiv (x1 + x2) 2) (Int.fdiv (y1 + y2) 2) screen_size)

/-- ASCII whitespace characters stripped by Python's `int(str)` conversion. -/
def isPySpace (c : Char) : Bool :=
  c == ' ' || c == '\t' || c == '\n' || c == '\r' || c == '\x0b' || c == '\x0c'

/-- Stripping surrounding whitespace, as Python's `int(str)` does before
parsing. -/
def pyStrip (cs : List Char) : List Char :=
  ((cs.dropWhile isPySpace).reverse.dropWhile isPySpace).reverse

/-- Digit-string parsing after the first digit: Python integer literals in
`int(str)` allow single underscores between digits, so the automaton tracks
whether the previous character was an underscore (an underscore may neither
follow another underscore nor end the string). -/
def pyDigitsRun (acc : Nat) (afterUnderscore : Bool) : List Char → Option Nat
  | [] => if afterUnderscore then none else some acc
  | c :: cs =>
    if c.isDigit then pyDigitsRun (acc * 10 + (c.toNat - 48)) false cs
    else if c = '_' then
      (if afterUnderscore then none else pyDigitsRun acc true cs)
    else none

/-- Digit-string parsing: a non-empty base-10 digit sequence, underscores
allowed only between digits. -/
def pyDigits : List Char → Option Nat
  | [] => none
  | c :: cs => if c.isDigit then pyDigitsRun (c.toNat - 48) false cs else none

/-- Sign handling of Python's `int(str)` on an already-stripped string: an
optional single leading `+` or `-` immediately followed by digits. -/
def pyIntCore : List Char → Option Int
  | [] => none
  | c :: rest =>
    if c = '-' then (pyDigits rest).map (fun n => -(Int.ofNat n))
    else if c = '+' then (pyDigits rest).map (fun n => Int.ofNat n)
    else (pyDigits (c :: rest)).map (fun n => Int.ofNat n)

/-- Python's `int(token)` for a base-10 string token: strip surrounding
whitespace, then parse an optionally signed digit string.  `none` models the
`ValueError` raised on a malformed literal. -/
def pyInt (cs : List Char) : Option Int :=
  pyIntCore (pyStrip cs)

/-- Python's `bounds_str.split(",")`: split at every comma, keeping empty
pieces, never dropping the final piece. -/
def splitOnComma : List Char → List (List Char)
  | [] => [[]]
  | c :: cs =>
    if c = ',' then [] :: splitOnComma cs
    else
      match splitOnComma cs with
      | t :: ts => (c :: t) :: ts
      | [] => [[c]]

/-- Python's `map(int, tokens)` materialized: all tokens parsed, or `none`
if any token is not an integer literal. -/
def mapPyInt : List (List Char) → Option (List Int)
  | [] => some []
  | t :: ts =>
    match pyInt t, mapPyInt ts with
    | some v, some vs => some (v :: vs)
    | _, _ => none

/-- The parsing stage of `bounds_to_normalized` (source line 224):
`map(int, bounds_str.split(","))`. -/
def parseBoundsTokens (s : String) : Option (List Int) :=
  mapPyInt (splitOnComma s.toList)

/-- Source lines 210-228: `bounds_to_normalized`.  Parses the comma-separated
tokens with `int`, unpacks exactly four values, and converts the two corner
points via `absolute_to_normalized`.  A malformed token raises the builtin
`ValueError` of `int`; a token count other than four raises the builtin
`ValueError` of tuple unpacking.  Neither is a `CoordinateError`. -/
def bounds_to_normalized (bounds_str : String) (screen_size : ScreenSize) :
    Except PyErr (Int × Int × Int × Int) :=
  match parseBoundsTokens bounds_str with
  | none => .error ⟨.valueError, "invalid literal for int() with base 10"⟩
  | some [left, top, right, bottom] =>
      .ok ((absolute_to_normalized left top screen_size).1,
           (absolute_to_normalized left top screen_size).2,
           (absolute_to_normalized right bottom screen_size).1,
           (absolute_to_normalized right bottom screen_size).2)
  | some _ => .error ⟨.valueError, "values to unpack (expected 4)"⟩

/-- The concrete screen size 1080x2400 used by the specification's test
cases (and as the default of `from_device_context`). -/
def szDefault : ScreenSize := ⟨1080, 2400, by decide, by decide⟩

/-- A degenerate but constructible screen size 1x1. -/
def szOne : ScreenSize := ⟨1, 1, by decide, by decide⟩

/-- Surrounding a token with `n` leading and `m` trailing spaces. -/
def padTok (n m : Nat) (t : List Char) : List Char :=
  List.replicate n ' ' ++ t ++ List.replicate m ' '

/-- The bounds string `"t1,t2,t3,t4"` assembled from four tokens. -/
def joinBounds (a b c d : List Char) : List Char :=
  a ++ ',' :: (b ++ ',' :: (c ++ ',' :: d))

/-- In-range coordinates pass `validate_normalized_coords`. -/
lemma validate_coords_ok (x y : Int) (ctx : String)
    (hx0 : 0 ≤ x) (hx1 : x ≤ 1000) (hy0 : 0 ≤ y) (hy1 : y ≤ 1000) :
    validate_normalized_coords x y ctx = .ok () := by
  unfold validate_normalized_coords NORMALIZED_RANGE
  rw [if_neg (by omega), if_neg (by omega)]

/-- Truncated and floor division agree on non-negative operands. -/
lemma tdiv_eq_fdiv_nonneg (a b : Int) (ha : 0 ≤ a) (hb : 0 ≤ b) :
    Int.tdiv a b = Int.fdiv a b := by
  rw [Int.tdiv_eq_ediv ha hb, Int.fdiv_eq_ediv _ hb]

/-- The scaled coordinate `(x * W) tdiv 1000` lands in `[0, W]` for
`x` in `[0, 1000]` and positive `W`. -/
lemma scale_nonneg_le (x W : Int) (hx0 : 0 ≤ x) (hx1 : x ≤ 1000) (hW : 0 < W) :
    0 ≤ Int.tdiv (x * W) 1000 ∧ Int.tdiv (x * W) 1000 ≤ W := by
  rw [Int.tdiv_eq_ediv (mul_nonneg hx0 hW.le) (by norm_num)]
  refine ⟨Int.ediv_nonneg (mul_nonneg hx0 hW.le) (by norm_num), ?_⟩
  have hle : x * W ≤ 1000 * W := mul_le_mul_of_nonneg_right hx1 hW.le
  have h2 := Int.ediv_le_ediv (by norm_num : (0:Int) < 1000) hle
  rwa [Int.mul_ediv_cancel_left W (by norm_num)] at h2

/-- Round trip on one axis: scaling to pixels and back moves a normalized
coordinate by at most one unit, provided the screen has at least 1000 pixels
on that axis. -/
lemma roundtrip_axis (x W : Int) (hx0 : 0 ≤ x) (hx1 : x ≤ 1000) (hW : 1000 ≤ W) :
    (max 0 (min 1000 (Int.tdiv (Int.tdiv (x * W) 1000 * 1000) W)) - x).natAbs ≤ 1 := by
  have hW0 : (0:Int) < W := by linarith
  have hxW : 0 ≤ x * W := mul_nonneg hx0 hW0.le
  rw [Int.tdiv_eq_ediv hxW (by norm_num)]
  have ha0 : 0 ≤ x * W / 1000 := Int.ediv_nonneg hxW (by norm_num)
  rw [Int.tdiv_eq_ediv (mul_nonneg ha0 (by norm_num)) hW0.le]
  have h1 : 1000 * (x * W / 1000) + x * W % 1000 = x * W := Int.ediv_add_emod _ _
  have h2 : 0 ≤ x * W % 1000 := Int.emod_nonneg _ (by norm_num)
  have h3 : x * W % 1000 < 1000 := Int.emod_lt_of_pos _ (by norm_num)
  have hupper : x * W / 1000 * 1000 / W ≤ x := by
    have hle : x * W / 1000 * 1000 ≤ x * W := by linarith
    have h := Int.ediv_le_ediv hW0 hle
    rwa [Int.mul_ediv_cancel x hW0.ne'] at h
  have hlower : x - 1 ≤ x * W / 1000 * 1000 / W := by
    rw [Int.le_ediv_iff_mul_le hW0]
    nlinarith
  have hv0 : 0 ≤ x * W / 1000 * 1000 / W :=
    Int.ediv_nonneg (mul_nonneg ha0 (by norm_num)) hW0.le
  generalize x * W / 1000 * 1000 / W = u at hupper hlower hv0
  omega

/-- A valid area passes `validate_normalized_area`. -/
lemma validate_area_ok (x1 y1 x2 y2 : Int) (ctx : String)
    (h1 : 0 ≤ x1) (h2 : x1 ≤ 1000) (h3 : 0 ≤ y1) (h4 : y1 ≤ 1000)
    (h5 : 0 ≤ x2) (h6 : x2 ≤ 1000) (h7 : 0 ≤ y2) (h8 : y2 ≤ 1000)
    (hx : x1 ≤ x2) (hy : y1 ≤ y2) :
    validate_normalized_area x1 y1 x2 y2 ctx = .ok () := by
  unfold validate_normalized_area
  rw [validate_coords_ok x1 y1 _ h1 h2 h3 h4, validate_coords_ok x2 y2 _ h5 h6 h7 h8]
  show (if x1 > x2 then _ else if y1 > y2 then _ else Except.ok ()) = Except.ok ()
  rw [if_neg (by omega), if_neg (by omega)]

/-- C7: ScreenSize construction succeeds exactly when both dimensions are
positive, a constructed instance carries the given dimensions, every
observable instance has positive dimensions (no partially-constructed
instance exists), `ScreenSize(width=0, height=100)` fails with a
CoordinateError, and `from_device_context` of the empty mapping yields
width 1080 and height 2400. -/
theorem C7_thm :
    (∀ w h : Int, (∃ s, ScreenSize.make w h = .ok s) ↔ (0 < w ∧ 0 < h)) ∧
    (∀ w h s, ScreenSize.make w h = .ok s → s.width = w ∧ s.height = h) ∧
    (∀ s : ScreenSize, 0 < s.width ∧ 0 < s.height) ∧
    (∃ m, ScreenSize.make 0 100 = .error (CoordinateError m)) ∧
    (∃ s, ScreenSize.from_device_context ⟨none⟩ = .ok s ∧ s.width = 1080 ∧ s.height = 2400) := by
  refine ⟨?_, ?_, ?_, ?_, ?_⟩
  · intro w h
    constructor
    · rintro ⟨s, hs⟩
      unfold ScreenSize.make at hs
      split_ifs at hs with hw hh
      omega
    · rintro ⟨hw, hh⟩
      unfold ScreenSize.make
      rw [dif_neg (by omega)]
      rw [dif_neg (by omega)]
      exact ⟨_, rfl⟩
  · intro w h s hs
    unfold ScreenSize.make at hs
    split_ifs at hs with hw hh
    injection hs with h2
    subst h2
    exact ⟨rfl, rfl⟩
  · exact fun s => ⟨s.width_pos, s.height_pos⟩
  · exact ⟨_, rfl⟩
  · exact ⟨⟨1080, 2400, by decide, by decide⟩, rfl, rfl, rfl⟩

/-- C7 witness: the construction equivalence applied at width 5, height 7. -/
theorem C7_wit : ∃ s, ScreenSize.make 5 7 = .ok s :=
  (C7_thm.1 5 7).mpr ⟨by decide, by decide⟩

/-- C8: for every valid normalized area (components in [0, 1000], ordered
corners) and every ScreenSize, `normalized_area_to_center` equals
`normalized_to_absolute` of the floor-division midpoints; in particular
the full area on the 1080x2400 screen has center (540, 1200). -/
theorem C8_thm :
    (∀ (S : ScreenSize) (x1 y1 x2 y2 : Int),
      0 ≤ x1 → x1 ≤ 1000 → 0 ≤ y1 → y1 ≤ 1000 →
      0 ≤ x2 → x2 ≤ 1000 → 0 ≤ y2 → y2 ≤ 1000 → x1 ≤ x2 → y1 ≤ y2 →
      normalized_area_to_center x1 y1 x2 y2 S =
        normalized_to_absolute (Int.fdiv (x1 + x2) 2) (Int.fdiv (y1 + y2) 2) S) ∧
    normalized_area_to_center 0 0 1000 1000 szDefault = .ok (540, 1200) := by
  constructor
  · intro S x1 y1 x2 y2 h1 h2 h3 h4 h5 h6 h7 h8 hx hy
    unfold normalized_area_to_center
    rw [validate_area_ok x1 y1 x2 y2 _ h1 h2 h3 h4 h5 h6 h7 h8 hx hy]
    rfl
  · decide

/-- C8 witness: the midpoint equation applied to the full normalized area on
the 1080x2400 screen. -/
theorem C8_wit : normalized_area_to_center 0 0 1000 1000 szDefault =
    normalized_to_absolute (Int.fdiv (0 + 1000) 2) (Int.fdiv (0 + 1000) 2) szDefault :=
  C8_thm.1 szDefault 0 0 1000 1000 (by decide) (by decide) (by decide) (by decide)
    (by decide) (by decide) (by decide) (by decide) (by decide) (by decide)

/-- C10: `from_device_context` applies the defaults per key: with
`screen_bounds` present but missing `width` (resp. `height`), the missing
dimension defaults to 1080 (resp. 2400) while the present positive dimension
is taken from the mapping. -/
theorem C10_thm :
    (∀ hv : Int, 0 < hv →
      ∃ s, ScreenSize.from_device_context ⟨some ⟨none, some hv⟩⟩ = .ok s ∧
        s.width = 1080 ∧ s.height = hv) ∧
    (∀ wv : Int, 0 < wv →
      ∃ s, ScreenSize.from_device_context ⟨some ⟨some wv, none⟩⟩ = .ok s ∧
        s.width = wv ∧ s.height = 2400) := by
  constructor
  · intro hv h
    unfold ScreenSize.from_device_context
    simp only [Option.getD_some, Option.getD_none]
    rw [if_neg (by omega)]
    unfold ScreenSize.make
    rw [dif_neg (by omega)]
    rw [dif_neg (by omega)]
    exact ⟨_, rfl, rfl, rfl⟩
  · intro wv h
    unfold ScreenSize.from_device_context
    simp only [Option.getD_some, Option.getD_none]
    rw [if_neg (by omega)]
    unfold ScreenSize.make
    rw [dif_neg (by omega)]
    rw [dif_neg (by omega)]
    exact ⟨_, rfl, rfl, rfl⟩

/-- C10 witness: the width default applied with a present height of 77. -/
theorem C10_wit : ∃ s, ScreenSize.from_device_context ⟨some ⟨none, some 77⟩⟩ = .ok s ∧
    s.width = 1080 ∧ s.height = 77 :=
  C10_thm.1 77 (by decide)

/-- C2 (amended): CoordinateError is a specialization of the generic
ValueError (and not conversely), but a bounds string that does not split into
exactly four base-10 integer tokens makes `bounds_to_normalized` fail with
the builtin ValueError of `int` conversion or tuple unpacking, which is not a
CoordinateError.  The original claim, that such failures are raised as
CoordinateError, is refuted by the counterexample. -/
theorem C2_thm :
    (PyErrClass.coordinateError.isSubclassOf .valueError = true) ∧
    (PyErrClass.valueError.isSubclassOf .coordinateError = false) ∧
    (∀ (s : String) (S : ScreenSize),
      (∀ a b c d : Int, parseBoundsTokens s ≠ some [a, b, c, d]) →
      ∃ m, bounds_to_normalized s S = .error ⟨.valueError, m⟩ ∧
        (PyErr.mk .valueError m).isInstanceOf .coordinateError = false) := by
  refine ⟨rfl, rfl, ?_⟩
  intro s S h
  cases hm : parseBoundsTokens s with
  | none =>
      refine ⟨"invalid literal for int() with base 10", ?_, rfl⟩
      unfold bounds_to_normalized
      rw [hm]
  | some l =>
      rcases l with _ | ⟨a, _ | ⟨b, _ | ⟨c, _ | ⟨d, _ | ⟨e, rest⟩⟩⟩⟩⟩
      · refine ⟨"values to unpack (expected 4)", ?_, rfl⟩
        unfold bounds_to_normalized
        rw [hm]
      · refine ⟨"values to unpack (expected 4)", ?_, rfl⟩
        unfold bounds_to_normalized
        rw [hm]
      · refine ⟨"values to unpack (expected 4)", ?_, rfl⟩
        unfold bounds_to_normalized
        rw [hm]
      · refine ⟨"values to unpack (expected 4)", ?_, rfl⟩
        unfold bounds_to_normalized
        rw [hm]
      · exact absurd hm (h a b c d)
      · refine ⟨"values to unpack (expected 4)", ?_, rfl⟩
        unfold bounds_to_normalized
        rw [hm]

/-- C2 witness: the amended theorem applied to the three-token string
"1,2,3". -/
theorem C2_wit : ∃ m, bounds_to_normalized "1,2,3" szDefault = .error ⟨.valueError, m⟩ ∧
    (PyErr.mk .valueError m).isInstanceOf .coordinateError = false :=
  C2_thm.2.2 "1,2,3" szDefault (fun a b c d hcon => by
    rw [show parseBoundsTokens "1,2,3" = some [1, 2, 3] from by decide] at hcon
    simp at hcon)

/-- C2 counterexample: the malformed bounds string "a,b,c,d" makes
`bounds_to_normalized` fail with a plain ValueError that is not an instance
of CoordinateError, refuting the claim that every failure of the module is a
CoordinateError. -/
theorem C2_cex :
    bounds_to_normalized "a,b,c,d" szDefault =
      .error ⟨.valueError, "invalid literal for int() with base 10"⟩ ∧
    (PyErr.mk .valueError "invalid literal for int() with base 10").isInstanceOf
      .coordinateError = false := by decide

/-- C3: for every ScreenSize with positive width and height and every
normalized pair in [0, 1000] x [0, 1000], `normalized_to_absolute` returns
exactly the floor of `normX * width / 1000` and `normY * height / 1000`;
the truncation toward zero used by the code coincides with floor on these
non-negative products. -/
theorem C3_thm (S : ScreenSize) (x y : Int)
    (hx0 : 0 ≤ x) (hx1 : x ≤ 1000) (hy0 : 0 ≤ y) (hy1 : y ≤ 1000) :
    normalized_to_absolute x y S =
      .ok (Int.fdiv (x * S.width) 1000, Int.fdiv (y * S.height) 1000) := by
  unfold normalized_to_absolute NORMALIZED_RANGE
  rw [validate_coords_ok x y _ hx0 hx1 hy0 hy1]
  show Except.ok (Int.tdiv (x * S.width) 1000, Int.tdiv (y * S.height) 1000) = _
  rw [tdiv_eq_fdiv_nonneg _ _ (mul_nonneg hx0 S.width_pos.le) (by norm_num),
      tdiv_eq_fdiv_nonneg _ _ (mul_nonneg hy0 S.height_pos.le) (by norm_num)]

/-- C3 witness: the theorem applied at (500, 500) on the 1080x2400 screen. -/
theorem C3_wit : normalized_to_absolute 500 500 szDefault =
    .ok (Int.fdiv (500 * szDefault.width) 1000, Int.fdiv (500 * szDefault.height) 1000) :=
  C3_thm szDefault 500 500 (by decide) (by decide) (by decide) (by decide)

/-- C4: for every ScreenSize with positive width and height and every
normalized pair in [0, 1000] x [0, 1000], `normalized_to_absolute` succeeds
and its result lies in [0, width] x [0, height]. -/
theorem C4_thm (S : ScreenSize) (x y : Int)
    (hx0 : 0 ≤ x) (hx1 : x ≤ 1000) (hy0 : 0 ≤ y) (hy1 : y ≤ 1000) :
    ∃ ax ay, normalized_to_absolute x y S = .ok (ax, ay) ∧
      0 ≤ ax ∧ ax ≤ S.width ∧ 0 ≤ ay ∧ ay ≤ S.height := by
  obtain ⟨ha1, ha2⟩ := scale_nonneg_le x S.width hx0 hx1 S.width_pos
  obtain ⟨hb1, hb2⟩ := scale_nonneg_le y S.height hy0 hy1 S.height_pos
  refine ⟨_, _, ?_, ha1, ha2, hb1, hb2⟩
  unfold normalized_to_absolute NORMALIZED_RANGE
  rw [validate_coords_ok x y _ hx0 hx1 hy0 hy1]
  rfl

/-- C4 witness: the theorem applied at (1000, 1000) on the 1x1 screen. -/
theorem C4_wit : ∃ ax ay, normalized_to_absolute 1000 1000 szOne = .ok (ax, ay) ∧
    0 ≤ ax ∧ ax ≤ szOne.width ∧ 0 ≤ ay ∧ ay ≤ szOne.height :=
  C4_thm szOne 1000 1000 (by decide) (by decide) (by decide) (by decide)

/-- C5: for every ScreenSize and every pair of integers, including negative
values and values exceeding the screen dimensions, `absolute_to_normalized`
never fails (it is a total function) and returns a pair with both components
clamped into [0, 1000]. -/
theorem C5_thm (ax ay : Int) (S : ScreenSize) :
    0 ≤ (absolute_to_normalized ax ay S).1 ∧ (absolute_to_normalized ax ay S).1 ≤ 1000 ∧
    0 ≤ (absolute_to_normalized ax ay S).2 ∧ (absolute_to_normalized ax ay S).2 ≤ 1000 := by
  unfold absolute_to_normalized NORMALIZED_RANGE
  dsimp only
  omega

/-- C1 (amended): for every ScreenSize with width and height at least 1000
and every normalized pair with both components in [0, 1000], applying
`absolute_to_normalized` to the result of `normalized_to_absolute` yields a
pair whose components each differ from the originals by at most 1.  The
original claim, quantified over all positive screen sizes, fails for screens
smaller than the normalized grid (see the counterexample). -/
theorem C1_thm (S : ScreenSize) (x y : Int) (hW : 1000 ≤ S.width) (hH : 1000 ≤ S.height)
    (hx0 : 0 ≤ x) (hx1 : x ≤ 1000) (hy0 : 0 ≤ y) (hy1 : y ≤ 1000) :
    ∃ ax ay, normalized_to_absolute x y S = .ok (ax, ay) ∧
      ((absolute_to_normalized ax ay S).1 - x).natAbs ≤ 1 ∧
      ((absolute_to_normalized ax ay S).2 - y).natAbs ≤ 1 := by
  refine ⟨Int.tdiv (x * S.width) 1000, Int.tdiv (y * S.height) 1000, ?_, ?_, ?_⟩
  · unfold normalized_to_absolute NORMALIZED_RANGE
    rw [validate_coords_ok x y _ hx0 hx1 hy0 hy1]
    rfl
  · have h := roundtrip_axis x S.width hx0 hx1 hW
    unfold absolute_to_normalized NORMALIZED_RANGE
    exact h
  · have h := roundtrip_axis y S.height hy0 hy1 hH
    unfold absolute_to_normalized NORMALIZED_RANGE
    exact h

/-- C1 witness: the amended theorem applied at (500, 500) on the 1080x2400
screen. -/
theorem C1_wit : ∃ ax ay, normalized_to_absolute 500 500 szDefault = .ok (ax, ay) ∧
    ((absolute_to_normalized ax ay szDefault).1 - 500).natAbs ≤ 1 ∧
    ((absolute_to_normalized ax ay szDefault).2 - 500).natAbs ≤ 1 :=
  C1_thm szDefault 500 500 (by decide) (by decide) (by decide) (by decide) (by decide) (by decide)

/-- C1 counterexample: on the constructible 1x1 screen, the round trip of
the normalized pair (999, 999) yields (0, 0), which differs from 999 by 999,
not at most 1.  This refutes the claim as stated for arbitrary positive
screen sizes. -/
theorem C1_cex :
    normalized_to_absolute 999 999 szOne = .ok (0, 0) ∧
    absolute_to_normalized 0 0 szOne = (0, 0) ∧
    ¬ (((absolute_to_normalized 0 0 szOne).1 - 999).natAbs ≤ 1) := by decide

/-- C6: for in-range corners, `validate_normalized_area` succeeds exactly
when `x1 <= x2` and `y1 <= y2`; when it fails, the error message names the
violated constraint with the offending values and begins with the
caller-supplied context label. -/
theorem C6_thm (x1 y1 x2 y2 : Int) (ctx : String)
    (h1 : 0 ≤ x1) (h2 : x1 ≤ 1000) (h3 : 0 ≤ y1) (h4 : y1 ≤ 1000)
    (h5 : 0 ≤ x2) (h6 : x2 ≤ 1000) (h7 : 0 ≤ y2) (h8 : y2 ≤ 1000) :
    ((validate_normalized_area x1 y1 x2 y2 ctx = .ok ()) ↔ (x1 ≤ x2 ∧ y1 ≤ y2)) ∧
    (x1 > x2 → validate_normalized_area x1 y1 x2 y2 ctx =
      .error (CoordinateError (ctxPre ctx ++ "Invalid area: x1 (" ++ toString x1
        ++ ") > x2 (" ++ toString x2 ++ "). Top-left X must be <= bottom-right X"))) ∧
    (x1 ≤ x2 → y1 > y2 → validate_normalized_area x1 y1 x2 y2 ctx =
      .error (CoordinateError (ctxPre ctx ++ "Invalid area: y1 (" ++ toString y1
        ++ ") > y2 (" ++ toString y2 ++ "). Top-left Y must be <= bottom-right Y"))) := by
  have hbind : validate_normalized_area x1 y1 x2 y2 ctx =
      (if x1 > x2 then
        .error (CoordinateError (ctxPre ctx ++ "Invalid area: x1 (" ++ toString x1
          ++ ") > x2 (" ++ toString x2 ++ "). Top-left X must be <= bottom-right X"))
      else if y1 > y2 then
        .error (CoordinateError (ctxPre ctx ++ "Invalid area: y1 (" ++ toString y1
          ++ ") > y2 (" ++ toString y2 ++ "). Top-left Y must be <= bottom-right Y"))
      else .ok ()) := by
    unfold validate_normalized_area
    rw [validate_coords_ok x1 y1 _ h1 h2 h3 h4, validate_coords_ok x2 y2 _ h5 h6 h7 h8]
    rfl
  refine ⟨⟨?_, ?_⟩, ?_, ?_⟩
  · intro hok
    rw [hbind] at hok
    split_ifs at hok with ha hb
    exact ⟨by omega, by omega⟩
  · rintro ⟨hle1, hle2⟩
    rw [hbind, if_neg (by omega), if_neg (by omega)]
  · intro hgt
    rw [hbind, if_pos hgt]
  · intro hle hgt
    rw [hbind, if_neg (by omega), if_pos hgt]

/-- C6 witness: the theorem applied to the valid area (1, 2, 3, 4) under the
context label "test". -/
theorem C6_wit : validate_normalized_area 1 2 3 4 "test" = .ok () :=
  ((C6_thm 1 2 3 4 "test" (by decide) (by decide) (by decide) (by decide)
    (by decide) (by decide) (by decide) (by decide)).1).mpr ⟨by decide, by decide⟩

/-- Leading spaces are removed by `dropWhile isPySpace`. -/
lemma dropWhile_replicate_space (n : Nat) (s : List Char) :
    (List.replicate n ' ' ++ s).dropWhile isPySpace = s.dropWhile isPySpace := by
  induction n with
  | zero => rfl
  | succ k ih =>
    rw [List.replicate_succ, List.cons_append, List.dropWhile_cons,
      if_pos (show isPySpace ' ' = true by decide)]
    exact ih

/-- Trailing spaces do not affect the two-sided strip. -/
lemma strip_right_pad (m : Nat) (t : List Char) :
    (((t ++ List.replicate m ' ').dropWhile isPySpace).reverse.dropWhile isPySpace).reverse =
    ((t.dropWhile isPySpace).reverse.dropWhile isPySpace).reverse := by
  induction t with
  | nil =>
    rw [List.nil_append]
    have h := dropWhile_replicate_space m []
    rw [List.append_nil] at h
    rw [h]
  | cons c t ih =>
    by_cases hc : isPySpace c = true
    · rw [List.cons_append, List.dropWhile_cons, List.dropWhile_cons, if_pos hc, if_pos hc]
      exact ih
    · rw [List.cons_append, List.dropWhile_cons, List.dropWhile_cons, if_neg hc, if_neg hc]
      rw [List.reverse_cons, List.reverse_append, List.reverse_replicate, List.append_assoc,
        dropWhile_replicate_space, List.reverse_cons]

/-- Surrounding a token with spaces does not change its stripped form. -/
lemma pyStrip_pad (n m : Nat) (t : List Char) : pyStrip (padTok n m t) = pyStrip t := by
  unfold padTok pyStrip
  rw [List.append_assoc, dropWhile_replicate_space]
  exact strip_right_pad m t

/-- Surrounding a token with spaces does not change its parse as an integer. -/
lemma pyInt_pad (n m : Nat) (t : List Char) : pyInt (padTok n m t) = pyInt t := by
  unfold pyInt
  rw [pyStrip_pad]

/-- An element that fails the predicate survives `dropWhile`. -/
lemma mem_dropWhile_of_not (c : Char) (p : Char → Bool) (l : List Char)
    (hc : p c = false) (h : c ∈ l) : c ∈ l.dropWhile p := by
  have hsplit : c ∈ l.takeWhile p ++ l.dropWhile p := by
    rw [List.takeWhile_append_dropWhile]
    exact h
  rcases List.mem_append.mp hsplit with h2 | h2
  · exact absurd (List.mem_takeWhile_imp h2) (by simp [hc])
  · exact h2

/-- A non-whitespace character of a token survives `pyStrip`. -/
lemma mem_pyStrip (c : Char) (t : List Char) (hc : isPySpace c = false) (h : c ∈ t) :
    c ∈ pyStrip t := by
  unfold pyStrip
  rw [List.mem_reverse]
  exact mem_dropWhile_of_not c _ _ hc
    (List.mem_reverse.mpr (mem_dropWhile_of_not c _ _ hc h))

/-- A successfully parsed digit run contains no comma. -/
lemma pyDigitsRun_no_comma : ∀ (l : List Char) (acc : Nat) (au : Bool) (n : Nat),
    pyDigitsRun acc au l = some n → ',' ∉ l := by
  intro l
  induction l with
  | nil => intro acc au n h; simp
  | cons c t ih =>
    intro acc au n h
    simp only [pyDigitsRun] at h
    split_ifs at h with hd hu hau
    · intro hmem
      rcases List.mem_cons.mp hmem with he | hm2
      · rw [← he] at hd
        exact absurd hd (by decide)
      · exact ih _ _ _ h hm2
    · intro hmem
      rcases List.mem_cons.mp hmem with he | hm2
      · rw [← he] at hu
        exact absurd hu (by decide)
      · exact ih _ _ _ h hm2

/-- A successfully parsed digit string contains no comma. -/
lemma pyDigits_no_comma (l : List Char) (n : Nat) (h : pyDigits l = some n) : ',' ∉ l := by
  rcases l with _ | ⟨c, t⟩
  · simp
  · simp only [pyDigits] at h
    split_ifs at h with hd
    intro hmem
    rcases List.mem_cons.mp hmem with he | hm2
    · rw [← he] at hd
      exact absurd hd (by decide)
    · exact pyDigitsRun_no_comma t _ _ n h hm2

/-- A token accepted by Python's `int` contains no comma. -/
lemma pyInt_no_comma (t : List Char) (v : Int) (h : pyInt t = some v) : ',' ∉ t := by
  intro hmem
  have h2 : ',' ∈ pyStrip t := mem_pyStrip ',' t (by decide) hmem
  unfold pyInt at h
  rcases hs : pyStrip t with _ | ⟨c, rest⟩
  · rw [hs] at h2
    simp at h2
  · rw [hs] at h h2
    simp only [pyIntCore] at h
    split_ifs at h with hminus hplus
    · rcases Option.map_eq_some'.mp h with ⟨nn, hn, _⟩
      rcases List.mem_cons.mp h2 with he | hm2
      · rw [hminus] at he
        exact absurd he (by decide)
      · exact pyDigits_no_comma rest nn hn hm2
    · rcases Option.map_eq_some'.mp h with ⟨nn, hn, _⟩
      rcases List.mem_cons.mp h2 with he | hm2
      · rw [hplus] at he
        exact absurd he (by decide)
      · exact pyDigits_no_comma rest nn hn hm2
    · rcases Option.map_eq_some'.mp h with ⟨nn, hn, _⟩
      exact pyDigits_no_comma (c :: rest) nn hn h2

/-- Splitting a comma-free string yields the single token. -/
lemma splitOnComma_no_comma (d : List Char) (hd : ',' ∉ d) : splitOnComma d = [d] := by
  induction d with
  | nil => rfl
  | cons c t ih =>
    have hc : ¬ (c = ',') := fun he => hd (by rw [he]; exact List.mem_cons_self _ _)
    have ht : ',' ∉ t := fun hm => hd (List.mem_cons_of_mem _ hm)
    unfold splitOnComma
    rw [if_neg hc, ih ht]

/-- Splitting after a comma-free first token peels that token off. -/
lemma splitOnComma_append (a rest : List Char) (ha : ',' ∉ a) :
    splitOnComma (a ++ ',' :: rest) = a :: splitOnComma rest := by
  induction a with
  | nil =>
    rw [List.nil_append]
    conv_lhs => unfold splitOnComma
    rw [if_pos rfl]
  | cons c t ih =>
    have hc : ¬ (c = ',') := fun he => ha (by rw [he]; exact List.mem_cons_self _ _)
    have ht : ',' ∉ t := fun hm => ha (List.mem_cons_of_mem _ hm)
    rw [List.cons_append]
    conv_lhs => unfold splitOnComma
    rw [if_neg hc, ih ht]

/-- A bounds string assembled from four parsable tokens parses to the four
values. -/
lemma parseBounds_four (t1 t2 t3 t4 : List Char) (v1 v2 v3 v4 : Int)
    (h1 : pyInt t1 = some v1) (h2 : pyInt t2 = some v2)
    (h3 : pyInt t3 = some v3) (h4 : pyInt t4 = some v4) :
    parseBoundsTokens (String.mk (joinBounds t1 t2 t3 t4)) = some [v1, v2, v3, v4] := by
  unfold parseBoundsTokens joinBounds
  have hx : (String.mk (t1 ++ ',' :: (t2 ++ ',' :: (t3 ++ ',' :: t4)))).toList =
      t1 ++ ',' :: (t2 ++ ',' :: (t3 ++ ',' :: t4)) := rfl
  rw [hx]
  rw [splitOnComma_append _ _ (pyInt_no_comma t1 v1 h1),
      splitOnComma_append _ _ (pyInt_no_comma t2 v2 h2),
      splitOnComma_append _ _ (pyInt_no_comma t3 v3 h3),
      splitOnComma_no_comma _ (pyInt_no_comma t4 v4 h4)]
  simp only [mapPyInt, h1, h2, h3, h4]

/-- C9: for every bounds string assembled from four tokens that parse as
base-10 integers, surrounding any token with leading or trailing spaces
yields the same successful result from `bounds_to_normalized` as the
unpadded string, because integer parsing strips surrounding whitespace. -/
theorem C9_thm (t1 t2 t3 t4 : List Char) (v1 v2 v3 v4 : Int)
    (n1 m1 n2 m2 n3 m3 n4 m4 : Nat) (S : ScreenSize)
    (h1 : pyInt t1 = some v1) (h2 : pyInt t2 = some v2)
    (h3 : pyInt t3 = some v3) (h4 : pyInt t4 = some v4) :
    bounds_to_normalized (String.mk (joinBounds (padTok n1 m1 t1) (padTok n2 m2 t2)
        (padTok n3 m3 t3) (padTok n4 m4 t4))) S =
      bounds_to_normalized (String.mk (joinBounds t1 t2 t3 t4)) S ∧
    ∃ r, bounds_to_normalized (String.mk (joinBounds t1 t2 t3 t4)) S = .ok r := by
  have hp1 : pyInt (padTok n1 m1 t1) = some v1 := by rw [pyInt_pad]; exact h1
  have hp2 : pyInt (padTok n2 m2 t2) = some v2 := by rw [pyInt_pad]; exact h2
  have hp3 : pyInt (padTok n3 m3 t3) = some v3 := by rw [pyInt_pad]; exact h3
  have hp4 : pyInt (padTok n4 m4 t4) = some v4 := by rw [pyInt_pad]; exact h4
  have hP := parseBounds_four _ _ _ _ _ _ _ _ hp1 hp2 hp3 hp4
  have hQ := parseBounds_four _ _ _ _ _ _ _ _ h1 h2 h3 h4
  unfold bounds_to_normalized
  rw [hP, hQ]
  exact ⟨rfl, ⟨_, rfl⟩⟩

/-- C9 witness: the theorem applied to the string "1,2,3,4" with assorted
space padding around each token. -/
theorem C9_wit :
    bounds_to_normalized (String.mk (joinBounds (padTok 1 1 ['1']) (padTok 0 2 ['2'])
        (padTok 3 0 ['3']) (padTok 1 1 ['4']))) szDefault =
      bounds_to_normalized (String.mk (joinBounds ['1'] ['2'] ['3'] ['4'])) szDefault ∧
    ∃ r, bounds_to_normalized (String.mk (joinBounds ['1'] ['2'] ['3'] ['4'])) szDefault = .ok r :=
  C9_thm ['1'] ['2'] ['3'] ['4'] 1 2 3 4 1 1 0 2 3 0 1 1 szDefault
    (by decide) (by decide) (by decide) (by decide)
